import Mathlib

/-!
Verification of the AMM dispatcher core (`src/amm/pool.rs`) of the
mev-engine repository: the `AutomatedMarketMaker` contract, the tagged
union `AMM` over pool families, its identity-based equality, and the
spec-described behaviour of the one supported family (`JediswapPool`).

Embedding conventions:
* `Felt` (a Starknet field element used as address / token id / amount)
  is embedded as `Nat`; no claim depends on field-modular wraparound.
* The Rust `f64` price is embedded as `Rat`; no claim depends on
  floating-point rounding.
* Methods taking `&mut self` are embedded in state-passing style,
  returning `result × state`.  Methods taking `&self` are embedded as
  pure functions of the receiver; their state-passing forms (suffix
  `_st`) return the receiver unchanged, which is exactly what the
  source's shared-borrow receiver guarantees.
* Fallible operations return `Except QueryError α`, where `QueryError`
  is the shared error taxonomy of spec §7 (the source's `StarknetError`
  is an external type; the taxonomy names the kinds the core uses).
-/

/-- A Starknet field element (`Felt` in the source), used for contract
addresses, token identifiers and token amounts. -/
abbrev Felt := Nat

/-- The shared error taxonomy of the contract (spec §7): every failure
of a contract operation is one of these kinds. -/
inductive QueryError where
  | UnknownToken
  | InsufficientLiquidity
  | DivisionByZero
  | Underflow
  | NetworkFailure
  | DecodeFailure
deriving DecidableEq, Repr

/-- The two cached token balances backing a pool's invariant
(`super::types::Reserves` in the source; modelled from the spec's data
model: `{reserve_base, reserve_quote}`, an immutable snapshot). -/
structure Reserves where
  reserve_base : Nat
  reserve_quote : Nat
deriving DecidableEq, Repr

/-- The outcome the external blockchain provider hands back for one
read-only call: a decoded value, a transport failure, or an
uninterpretable response (spec §6: "get back a result or a
network/revert error"). -/
inductive ProviderResponse where
  | success (r : Reserves)
  | transportError
  | malformed
deriving DecidableEq, Repr

/-- Modelled from the spec: the `JediswapPool` implementation lives in
`super::jediswap`, which is not under `src/`; only its use by the
dispatcher is.  Per spec §3 a variant carries the family's full pool
state: its on-chain address, its two traded tokens, and its cached
reserves (the concrete scenarios of §8 use a zero-fee constant-product
pool, so no fee field is carried). -/
structure JediswapPool where
  address : Felt
  token_a : Felt
  token_b : Felt
  reserves : Reserves
deriving DecidableEq, Repr

/-- Modelled from the spec: `tokens()` of the missing `JediswapPool`
implementation — "returns the tokens this pool trades", an ordered
sequence. -/
def JediswapPool.tokens (p : JediswapPool) : List Felt :=
  [p.token_a, p.token_b]

/-- Modelled from the spec: `calculate_price` of the missing
`JediswapPool` implementation — the instantaneous rate of `base` in
`quote` from cached reserves (spec §4.1: `UnknownToken` if either token
is not traded, a `DivisionByZero`-class failure if the denominating
reserve is zero, otherwise the reserve ratio: §8's concrete scenario
makes `calculate_price(base, quote) = reserve_quote / reserve_base`). -/
def JediswapPool.calculate_price (p : JediswapPool) (base_token quote_token : Felt) :
    Except QueryError Rat :=
  if base_token = p.token_a ∧ quote_token = p.token_b then
    if p.reserves.reserve_base = 0 then .error .DivisionByZero
    else .ok ((p.reserves.reserve_quote : Rat) / (p.reserves.reserve_base : Rat))
  else if base_token = p.token_b ∧ quote_token = p.token_a then
    if p.reserves.reserve_quote = 0 then .error .DivisionByZero
    else .ok ((p.reserves.reserve_base : Rat) / (p.reserves.reserve_quote : Rat))
  else .error .UnknownToken

/-- Modelled from the spec: `simulate_swap_mut` of the missing
`JediswapPool` implementation — zero-fee constant-product swap (spec §8
scenario: `amount_out = reserve_quote - reserve_base*reserve_quote /
(reserve_base + amount_in)`), mutating the cached reserves to the
post-trade state on success and leaving them untouched on every
failure (spec §4.1: no partial mutation).  Fails with `UnknownToken`
for a token pair the pool does not trade and with
`InsufficientLiquidity` when the trade would fully drain a reserve. -/
def JediswapPool.simulate_swap_mut (p : JediswapPool)
    (base_token quote_token amount_in : Felt) :
    Except QueryError Felt × JediswapPool :=
  if base_token = p.token_a ∧ quote_token = p.token_b then
    let rb := p.reserves.reserve_base
    let rq := p.reserves.reserve_quote
    if rb + amount_in = 0 then (.error .DivisionByZero, p)
    else
      let new_rq := rb * rq / (rb + amount_in)
      if new_rq = 0 then (.error .InsufficientLiquidity, p)
      else (.ok (rq - new_rq), { p with reserves := ⟨rb + amount_in, new_rq⟩ })
  else if base_token = p.token_b ∧ quote_token = p.token_a then
    let rb := p.reserves.reserve_base
    let rq := p.reserves.reserve_quote
    if rq + amount_in = 0 then (.error .DivisionByZero, p)
    else
      let new_rb := rb * rq / (rq + amount_in)
      if new_rb = 0 then (.error .InsufficientLiquidity, p)
      else (.ok (rb - new_rb), { p with reserves := ⟨new_rb, rq + amount_in⟩ })
  else (.error .UnknownToken, p)

/-- Modelled from the spec: `simulate_swap` of the missing
`JediswapPool` implementation — "identical math" to the mutating
variant but, taking `&self`, it never mutates the pool; the
constant-product family needs no auxiliary on-chain reads, so the
provider is not consulted. -/
def JediswapPool.simulate_swap (p : JediswapPool)
    (base_token quote_token amount_in : Felt) (_provider : ProviderResponse) :
    Except QueryError Felt :=
  (p.simulate_swap_mut base_token quote_token amount_in).1

/-- Modelled from the spec: `get_reserves` of the missing
`JediswapPool` implementation — fetches reserves through the provider,
replaces the cached reserves wholesale on success and returns the new
value; a transport failure surfaces as `NetworkFailure` and an
undecodable response as `DecodeFailure`, in both cases leaving the
cached state unchanged (spec §4.1, §5, §8). -/
def JediswapPool.get_reserves (p : JediswapPool) (provider : ProviderResponse) :
    Except QueryError Reserves × JediswapPool :=
  match provider with
  | .success r => (.ok r, { p with reserves := r })
  | .transportError => (.error .NetworkFailure, p)
  | .malformed => (.error .DecodeFailure, p)

/-- The tagged union over supported pool families, generated in the
source by `amm!(JediswapPool)`: exactly one variant per family. -/
inductive AMM where
  | JediswapPool (pool : JediswapPool)
deriving DecidableEq, Repr

/-- Dispatcher `address`: forwards to the held variant
(`match self { AMM::JediswapPool(pool) => pool.address() }`). -/
def AMM.address : AMM → Felt
  | .JediswapPool pool => pool.address

/-- Dispatcher `tokens`: forwards to the held variant. -/
def AMM.tokens : AMM → List Felt
  | .JediswapPool pool => pool.tokens

/-- Dispatcher `calculate_price`: forwards to the held variant.  The
receiver is `&self` in the source and no provider is passed, so the
call can neither mutate the pool nor consult the network. -/
def AMM.calculate_price : AMM → Felt → Felt → Except QueryError Rat
  | .JediswapPool pool => pool.calculate_price

/-- Dispatcher `simulate_swap`: forwards to the held variant together
with the provider handle.  The receiver is `&self` in the source. -/
def AMM.simulate_swap : AMM → Felt → Felt → Felt → ProviderResponse →
    Except QueryError Felt
  | .JediswapPool pool => pool.simulate_swap

/-- Dispatcher `simulate_swap_mut`: forwards to the held variant; the
`&mut self` receiver is embedded by returning the updated union value
alongside the variant's result. -/
def AMM.simulate_swap_mut (a : AMM) (base_token quote_token amount_in : Felt) :
    Except QueryError Felt × AMM :=
  match a with
  | .JediswapPool pool =>
      let r := pool.simulate_swap_mut base_token quote_token amount_in
      (r.1, .JediswapPool r.2)

/-- Dispatcher `get_reserves`: forwards to the held variant; the
`&mut self` receiver is embedded by returning the updated union value
alongside the variant's result. -/
def AMM.get_reserves (a : AMM) (provider : ProviderResponse) :
    Except QueryError Reserves × AMM :=
  match a with
  | .JediswapPool pool =>
      let r := pool.get_reserves provider
      (r.1, .JediswapPool r.2)

/-- The source's `PartialEq for AMM`:
`self.address() == other.address()` — equality by identity only. -/
def AMM.beq (a other : AMM) : Bool :=
  a.address == other.address

/-- Observer for stating reserve-state properties: the cached
`Reserves` carried by the held variant. -/
def AMM.reserves : AMM → Reserves
  | .JediswapPool pool => pool.reserves

/-- State-passing form of the dispatcher's `calculate_price`: the
source receiver is `&self`, so the post-state is the receiver
unchanged. -/
def AMM.calculate_price_st (a : AMM) (base_token quote_token : Felt) :
    (Except QueryError Rat) × AMM :=
  (a.calculate_price base_token quote_token, a)

/-- State-passing form of the dispatcher's `simulate_swap`: the source
receiver is `&self`, so the post-state is the receiver unchanged. -/
def AMM.simulate_swap_st (a : AMM)
    (base_token quote_token amount_in : Felt) (provider : ProviderResponse) :
    (Except QueryError Felt) × AMM :=
  (a.simulate_swap base_token quote_token amount_in provider, a)

/-- State-passing form of the dispatcher's `address`: the source
receiver is `&self`, so the post-state is the receiver unchanged. -/
def AMM.address_st (a : AMM) : Felt × AMM :=
  (a.address, a)

/-- State-passing form of the dispatcher's `tokens`: the source
receiver is `&self`, so the post-state is the receiver unchanged. -/
def AMM.tokens_st (a : AMM) : List Felt × AMM :=
  (a.tokens, a)

/-! ## Concrete pools used by witnesses -/

/-- A concrete Jediswap pool: address 100, trading tokens 1 and 2,
cached reserves (10, 20). -/
def poolA : JediswapPool := ⟨100, 1, 2, ⟨10, 20⟩⟩

/-- A pool at the same address as `poolA` but with different reserves. -/
def poolB : JediswapPool := ⟨100, 1, 2, ⟨0, 0⟩⟩

/-- A third pool at the same address as `poolA`. -/
def poolC : JediswapPool := ⟨100, 1, 2, ⟨7, 9⟩⟩

/-! ## Helper lemmas -/

/-- `simulate_swap_mut` on a variant never changes the stored address:
only the cached reserves are written. -/
theorem JediswapPool.simulate_swap_mut_address (p : JediswapPool)
    (bt qt amt : Felt) :
    ((p.simulate_swap_mut bt qt amt).2).address = p.address := by
  simp only [JediswapPool.simulate_swap_mut]
  split_ifs <;> rfl

/-- On any error, `JediswapPool.simulate_swap_mut` returns the pool
unchanged. -/
theorem JediswapPool.simulate_swap_mut_error_frame (p : JediswapPool)
    (bt qt amt : Felt) (e : QueryError)
    (h : (p.simulate_swap_mut bt qt amt).1 = .error e) :
    (p.simulate_swap_mut bt qt amt).2 = p := by
  simp only [JediswapPool.simulate_swap_mut] at h ⊢
  split_ifs at h ⊢ <;> simp_all

/-! ## The claims -/

/-- C1: for all AMM values `a` and `b`, `a == b` holds iff
`a.address() == b.address()`, regardless of any other field of the
carried pool variant (identity-based equality). -/
theorem amm_eq_iff_address_eq (a b : AMM) :
    AMM.beq a b = true ↔ AMM.address a = AMM.address b := by
  simp [AMM.beq]

/-- C2: the dispatcher forwards every contract operation to the held
variant with the same arguments, returning exactly the variant's
result (errors included) and introducing no state change of its own:
the post-state of a mutating operation is exactly the variant's
post-state, re-wrapped. -/
theorem amm_dispatcher_forwards (p : JediswapPool) (bt qt amt : Felt)
    (prov : ProviderResponse) :
    AMM.address (AMM.JediswapPool p) = p.address ∧
    AMM.tokens (AMM.JediswapPool p) = p.tokens ∧
    AMM.calculate_price (AMM.JediswapPool p) bt qt = p.calculate_price bt qt ∧
    AMM.simulate_swap (AMM.JediswapPool p) bt qt amt prov =
      p.simulate_swap bt qt amt prov ∧
    AMM.simulate_swap_mut (AMM.JediswapPool p) bt qt amt =
      ((p.simulate_swap_mut bt qt amt).1,
        AMM.JediswapPool (p.simulate_swap_mut bt qt amt).2) ∧
    AMM.get_reserves (AMM.JediswapPool p) prov =
      ((p.get_reserves prov).1, AMM.JediswapPool (p.get_reserves prov).2) :=
  ⟨rfl, rfl, rfl, rfl, rfl, rfl⟩

/-- C3: if `simulate_swap_mut` returns an error, the pool's entire
cached state after the call equals its state before the call — no
partial mutation on failure. -/
theorem simulate_swap_mut_error_leaves_state (a : AMM) (bt qt amt : Felt)
    (e : QueryError) (h : (AMM.simulate_swap_mut a bt qt amt).1 = .error e) :
    (AMM.simulate_swap_mut a bt qt amt).2 = a := by
  cases a with
  | JediswapPool p =>
      have hp : (p.simulate_swap_mut bt qt amt).1 = .error e := h
      simp [AMM.simulate_swap_mut,
        JediswapPool.simulate_swap_mut_error_frame p bt qt amt e hp]

/-- C3 witness: swapping an unknown token (7) on a concrete pool fails
and leaves the AMM unchanged. -/
theorem simulate_swap_mut_error_leaves_state_witness :
    (AMM.simulate_swap_mut (AMM.JediswapPool poolA) 7 2 5).2 =
      AMM.JediswapPool poolA :=
  simulate_swap_mut_error_leaves_state (AMM.JediswapPool poolA) 7 2 5
    QueryError.UnknownToken rfl

/-- C4: every failure of `calculate_price` is one of the shared
taxonomy kinds; it fails with `UnknownToken` whenever either requested
token is not in `tokens()`; and it fails with a `DivisionByZero`-class
error whenever the pair is valid but the denominating reserve is
zero. -/
theorem calculate_price_error_taxonomy (a : AMM) (bt qt : Felt) :
    (∀ e : QueryError, AMM.calculate_price a bt qt = .error e →
      e = .UnknownToken ∨ e = .InsufficientLiquidity ∨ e = .DivisionByZero ∨
      e = .Underflow ∨ e = .NetworkFailure ∨ e = .DecodeFailure) ∧
    ((bt ∉ AMM.tokens a ∨ qt ∉ AMM.tokens a) →
      AMM.calculate_price a bt qt = .error .UnknownToken) ∧
    (∀ p : JediswapPool, a = AMM.JediswapPool p →
      bt = p.token_a → qt = p.token_b → p.reserves.reserve_base = 0 →
      AMM.calculate_price a bt qt = .error .DivisionByZero) ∧
    (∀ p : JediswapPool, a = AMM.JediswapPool p → p.token_a ≠ p.token_b →
      bt = p.token_b → qt = p.token_a → p.reserves.reserve_quote = 0 →
      AMM.calculate_price a bt qt = .error .DivisionByZero) := by
  cases a with
  | JediswapPool p =>
      refine ⟨fun e _ => ?_, fun h => ?_, ?_, ?_⟩
      · cases e <;> simp
      · have hb : ¬(bt = p.token_a ∧ qt = p.token_b) := by
          rcases h with h | h <;>
            simp only [AMM.tokens, JediswapPool.tokens, List.mem_cons,
              List.mem_singleton, List.not_mem_nil, or_false, not_or] at h <;>
            tauto
        have hq : ¬(bt = p.token_b ∧ qt = p.token_a) := by
          rcases h with h | h <;>
            simp only [AMM.tokens, JediswapPool.tokens, List.mem_cons,
              List.mem_singleton, List.not_mem_nil, or_false, not_or] at h <;>
            tauto
        simp [AMM.calculate_price, JediswapPool.calculate_price, hb, hq]
      · rintro p' ⟨rfl⟩ rfl rfl h0
        simp [AMM.calculate_price, JediswapPool.calculate_price, h0]
      · rintro p' ⟨rfl⟩ hab rfl rfl h0
        have hb : ¬(p.token_b = p.token_a ∧ p.token_a = p.token_b) := by
          intro hc
          exact hab hc.1.symm
        simp [AMM.calculate_price, JediswapPool.calculate_price, hb, h0]

/-- C5: `calculate_price` is a pure function of the pool's current
cached state: equal states with equal arguments give equal results,
and the call leaves the AMM state unchanged (the source receiver is
`&self` and no provider handle is passed, so no network is
consulted). -/
theorem calculate_price_pure (a a2 : AMM) (bt qt : Felt) (h : a2 = a) :
    AMM.calculate_price a2 bt qt = AMM.calculate_price a bt qt ∧
    (AMM.calculate_price_st a bt qt).2 = a ∧
    (AMM.calculate_price_st a bt qt).1 = AMM.calculate_price a bt qt := by
  subst h
  exact ⟨rfl, rfl, rfl⟩

/-- C5 witness: the purity law at a concrete pool and token pair. -/
theorem calculate_price_pure_witness :
    AMM.calculate_price (AMM.JediswapPool poolA) 1 2 =
      AMM.calculate_price (AMM.JediswapPool poolA) 1 2 ∧
    (AMM.calculate_price_st (AMM.JediswapPool poolA) 1 2).2 =
      AMM.JediswapPool poolA ∧
    (AMM.calculate_price_st (AMM.JediswapPool poolA) 1 2).1 =
      AMM.calculate_price (AMM.JediswapPool poolA) 1 2 :=
  calculate_price_pure (AMM.JediswapPool poolA) (AMM.JediswapPool poolA) 1 2 rfl

/-- C6: `simulate_swap` leaves the pool's state entirely unchanged,
whether it succeeds or fails: its state-passing form returns the
receiver as the post-state for every argument and provider outcome. -/
theorem simulate_swap_no_mutation (a : AMM) (bt qt amt : Felt)
    (prov : ProviderResponse) :
    (AMM.simulate_swap_st a bt qt amt prov).2 = a :=
  rfl

/-- C7: a `get_reserves` call whose provider fails with a transport
error returns `NetworkFailure` and leaves the cached state unchanged;
a successful call returns the fetched `Reserves` and replaces the
cached reserves with exactly that value, leaving identity and tokens
untouched. -/
theorem get_reserves_failure_and_success (a : AMM) (prov : ProviderResponse) :
    (prov = ProviderResponse.transportError →
      AMM.get_reserves a prov = (.error .NetworkFailure, a)) ∧
    (∀ r : Reserves, prov = ProviderResponse.success r →
      (AMM.get_reserves a prov).1 = .ok r ∧
      (AMM.get_reserves a prov).2.reserves = r ∧
      (AMM.get_reserves a prov).2.address = a.address ∧
      (AMM.get_reserves a prov).2.tokens = a.tokens) := by
  cases a with
  | JediswapPool p =>
      refine ⟨fun h => ?_, fun r h => ?_⟩
      · subst h
        rfl
      · subst h
        exact ⟨rfl, rfl, rfl, rfl⟩

/-- C8: a clone that has been mutated by a successful
`simulate_swap_mut` call still compares equal to its pre-mutation
original, because the mutation only rewrites cached reserves and the
equality of the source compares addresses only. -/
theorem mutated_clone_still_equal (a b0 : AMM) (hclone : b0 = a)
    (bt qt amt : Felt) (out : Felt)
    (hok : (AMM.simulate_swap_mut b0 bt qt amt).1 = .ok out) :
    AMM.beq a (AMM.simulate_swap_mut b0 bt qt amt).2 = true := by
  subst hclone
  cases b0 with
  | JediswapPool p =>
      have haddr :
          ((p.simulate_swap_mut bt qt amt).2).address = p.address :=
        JediswapPool.simulate_swap_mut_address p bt qt amt
      simp [AMM.beq, AMM.simulate_swap_mut, AMM.address, haddr]

/-- C8 witness: a successful concrete swap (tokens 1 into 2, amount 5,
output 7) on a clone of `poolA` leaves the clone equal to the
original. -/
theorem mutated_clone_still_equal_witness :
    AMM.beq (AMM.JediswapPool poolA)
      (AMM.simulate_swap_mut (AMM.JediswapPool poolA) 1 2 5).2 = true :=
  mutated_clone_still_equal (AMM.JediswapPool poolA) (AMM.JediswapPool poolA)
    rfl 1 2 5 7 rfl

/-- C9: `address` and `tokens` are total operations: each always
returns a plain value (no error result in its type) and leaves the
AMM state unchanged. -/
theorem address_tokens_total_no_effects (a : AMM) :
    AMM.address_st a = (AMM.address a, a) ∧
    AMM.tokens_st a = (AMM.tokens a, a) :=
  ⟨rfl, rfl⟩

/-- C10: the source's address-based equality is an equivalence
relation: `a == a` holds unconditionally for every AMM value,
`a == b` alone implies `b == a`, and `a == b` together with `b == c`
implies `a == c` — so AMM values sharing an address are
interchangeable for deduplication while distinct addresses compare
unequal. -/
theorem amm_beq_equivalence (a b c : AMM) :
    AMM.beq a a = true ∧
    (AMM.beq a b = true → AMM.beq b a = true) ∧
    (AMM.beq a b = true → AMM.beq b c = true → AMM.beq a c = true) := by
  refine ⟨?_, ?_, ?_⟩
  · simp [AMM.beq]
  · intro hab
    simp only [AMM.beq, beq_iff_eq] at hab ⊢
    exact hab.symm
  · intro hab hbc
    simp only [AMM.beq, beq_iff_eq] at hab hbc ⊢
    exact hab.trans hbc

/-- C10 witness: three concrete AMM values at the same address but
with different reserves satisfy the equivalence laws, with the
symmetry and transitivity premises discharged at those values. -/
theorem amm_beq_equivalence_witness :
    AMM.beq (AMM.JediswapPool poolA) (AMM.JediswapPool poolA) = true ∧
    AMM.beq (AMM.JediswapPool poolB) (AMM.JediswapPool poolA) = true ∧
    AMM.beq (AMM.JediswapPool poolA) (AMM.JediswapPool poolC) = true :=
  ⟨(amm_beq_equivalence (AMM.JediswapPool poolA) (AMM.JediswapPool poolB)
      (AMM.JediswapPool poolC)).1,
   (amm_beq_equivalence (AMM.JediswapPool poolA) (AMM.JediswapPool poolB)
      (AMM.JediswapPool poolC)).2.1 rfl,
   (amm_beq_equivalence (AMM.JediswapPool poolA) (AMM.JediswapPool poolB)
      (AMM.JediswapPool poolC)).2.2 rfl rfl⟩
